/-
Formal model of the fenyr-trading-agent decision pipeline.

Shallow embedding of the Python sources:
  * src/ai_trader.py        (TechnicalAnalysis: RSI / EMA / MACD)
  * src/agents/base.py      (Signal, Action, AgentDecision)
  * src/agents/market_analyst.py, sentiment.py, risk_manager.py
                            (signal extraction from raw LLM text)
  * src/agents/coordinator.py (calculate_consensus, run_team_analysis)
  * src/agents/executor.py  (execute_trade, analyze)

Python floats are modelled as rationals (exact decimal arithmetic); the
builtin round(x, 2) is modelled as round-half-to-even at two decimals.
Dictionaries returned to callers are modelled as structures whose
optional fields are `Option`-valued (a missing key is `none`); reading a
key with square brackets on a missing key is a KeyError, modelled with
`Except`.  External collaborators (exchange client, LLM) enter as
explicit parameters.
-/
import Mathlib

set_option maxRecDepth 16000

namespace Fenyr

/-! ## Rounding: Python round(x, 2) on exact rationals -/

/-- Round half to even, the tie-breaking rule of the Python builtin round. -/
def rhe (q : ℚ) : ℤ :=
  if q - ⌊q⌋ < 1/2 then ⌊q⌋
  else if 1/2 < q - ⌊q⌋ then ⌊q⌋ + 1
  else if ⌊q⌋ % 2 = 0 then ⌊q⌋ else ⌊q⌋ + 1

/-- Python round(q, 2) on the rational model. -/
def round2 (q : ℚ) : ℚ := (rhe (100 * q) : ℚ) / 100

/-- A rational that is a whole number of hundredths (a price in cents). -/
def Cent (q : ℚ) : Prop := ∃ k : ℤ, q = (k : ℚ) / 100

lemma le_rhe (q : ℚ) : ⌊q⌋ ≤ rhe q := by
  unfold rhe
  split
  · exact le_refl _
  · split
    · exact Int.le.intro 1 rfl
    · split
      · exact le_refl _
      · exact Int.le.intro 1 rfl

lemma rhe_le (q : ℚ) : rhe q ≤ ⌊q⌋ + 1 := by
  unfold rhe
  split
  · exact Int.le.intro 1 rfl
  · split
    · exact le_refl _
    · split
      · exact Int.le.intro 1 rfl
      · exact le_refl _

lemma rhe_intCast (n : ℤ) : rhe (n : ℚ) = n := by
  unfold rhe
  rw [Int.floor_intCast]
  simp

lemma round2_cent (q : ℚ) : Cent (round2 q) := ⟨rhe (100 * q), rfl⟩

lemma Cent.round2_eq {q : ℚ} (h : Cent q) : round2 q = q := by
  obtain ⟨k, hk⟩ := h
  subst hk
  unfold round2
  rw [show (100 : ℚ) * ((k : ℚ) / 100) = (k : ℚ) by ring, rhe_intCast]

lemma Cent.sub {x y : ℚ} (hx : Cent x) (hy : Cent y) : Cent (x - y) := by
  obtain ⟨k, hk⟩ := hx
  obtain ⟨l, hl⟩ := hy
  exact ⟨k - l, by subst hk; subst hl; push_cast; ring⟩

lemma round2_nonneg {q : ℚ} (h : 0 ≤ q) : 0 ≤ round2 q := by
  unfold round2
  have h100 : (0 : ℚ) ≤ 100 * q := by positivity
  have hfl : (0 : ℤ) ≤ ⌊(100 : ℚ) * q⌋ := Int.floor_nonneg.mpr h100
  have : (0 : ℤ) ≤ rhe (100 * q) := le_trans hfl (le_rhe _)
  have : (0 : ℚ) ≤ (rhe (100 * q) : ℚ) := by exact_mod_cast this
  positivity

lemma round2_le_100 {q : ℚ} (h : q < 100) : round2 q ≤ 100 := by
  unfold round2
  have h100 : (100 : ℚ) * q < 10000 := by linarith
  have hfl : ⌊(100 : ℚ) * q⌋ < 10000 := by
    have := Int.floor_le ((100 : ℚ) * q)
    exact_mod_cast lt_of_le_of_lt this h100
  have hle : rhe (100 * q) ≤ 10000 := by
    have := rhe_le ((100 : ℚ) * q)
    omega
  have : (rhe (100 * q) : ℚ) ≤ 10000 := by exact_mod_cast hle
  linarith

/-! ## IndicatorEngine: src/ai_trader.py, class TechnicalAnalysis -/

/-- np.diff: first differences of a series. -/
def npDiff (l : List ℚ) : List ℚ := List.zipWith (fun b a => b - a) l.tail l

/-- Python tail slice xs[-n:] (all of xs when n exceeds its length). -/
def lastN (n : Nat) (l : List ℚ) : List ℚ := l.drop (l.length - n)

/-- np.mean of a list (only ever applied to nonempty lists in the source). -/
def npMean (l : List ℚ) : ℚ := l.sum / l.length

/-- np.where(deltas > 0, deltas, 0). -/
def gainsOf (deltas : List ℚ) : List ℚ := deltas.map (fun d => if 0 < d then d else 0)

/-- np.where(deltas < 0, -deltas, 0): losses as positive magnitudes. -/
def lossesOf (deltas : List ℚ) : List ℚ := deltas.map (fun d => if d < 0 then -d else 0)

/-- TechnicalAnalysis.calculate_rsi (src/ai_trader.py lines 21-39). -/
def calculate_rsi (prices : List ℚ) (period : Nat := 14) : ℚ :=
  if prices.length < period + 1 then 50
  else
    let deltas := npDiff prices
    let avg_gain := npMean (lastN period (gainsOf deltas))
    let avg_loss := npMean (lastN period (lossesOf deltas))
    if avg_loss = 0 then 100
    else round2 (100 - 100 / (1 + avg_gain / avg_loss))

/-- The EMA recurrence loop shared by both EMA implementations. -/
def emaFold (period : Nat) (seed : ℚ) (rest : List ℚ) : ℚ :=
  rest.foldl (fun e price => (price - e) * (2 / ((period : ℚ) + 1)) + e) seed

/-- TechnicalAnalysis.calculate_ema (src/ai_trader.py lines 41-51).
For a series shorter than the period it returns the last price (0 when
empty); otherwise the seeded recurrence rounded to 2 decimals.  The inner
match arm for an empty list is unreachable at every call site (period is
at least 9 there). -/
def calculate_ema (prices : List ℚ) (period : Nat) : ℚ :=
  if prices.length < period then (prices.getLast?).getD 0
  else
    match prices with
    | [] => 0
    | p :: rest => round2 (emaFold period p rest)

/-- The dictionary returned by TechnicalAnalysis.calculate_macd. -/
structure MacdResult where
  macd : ℚ
  signal : ℚ
  histogram : ℚ
deriving DecidableEq, Repr

/-- TechnicalAnalysis.calculate_macd (src/ai_trader.py lines 53-65).
Note the signal line is the EMA(9) of the trailing 9 PRICES. -/
def calculate_macd (prices : List ℚ) : MacdResult :=
  let ema_12 := calculate_ema prices 12
  let ema_26 := calculate_ema prices 26
  let macd_line := ema_12 - ema_26
  let signal_line := if 9 ≤ prices.length then calculate_ema (lastN 9 prices) 9 else macd_line
  { macd := round2 macd_line
    signal := round2 signal_line
    histogram := round2 (macd_line - signal_line) }

/-- Modelled from the spec (section 4.1), NOT from the source: the MACD-line
history, the MACD value over every prefix of the price series.  The source
never computes such a history; this definition exists only to state the
claimed signal line against the code. -/
def macdHistory (prices : List ℚ) : List ℚ :=
  (List.range prices.length).map
    (fun i => calculate_ema (prices.take (i + 1)) 12 - calculate_ema (prices.take (i + 1)) 26)

/-- Modelled from the spec (section 4.1), NOT from the source: the claimed
signal line, EMA(9) over the trailing 9 values of the MACD-line history. -/
def macdSignalSpec (prices : List ℚ) : ℚ :=
  calculate_ema (lastN 9 (macdHistory prices)) 9

/-! ## Signal and Action enumerations: src/agents/base.py -/

/-- Signal enumeration (src/agents/base.py lines 16-26). -/
inductive Signal where
  | buy | sell | hold | neutral | bullish | bearish | approve | reject | reduce
deriving DecidableEq, Repr

/-- Action enumeration (src/agents/base.py lines 29-33). -/
inductive Action where
  | execute | hold | alert
deriving DecidableEq, Repr

/-- The .value string of an Action member. -/
def Action.valueStr : Action → String
  | .execute => "execute"
  | .hold => "hold"
  | .alert => "alert"

/-! ## JSON values and a strict json.loads model

The LLM response parsing in market_analyst.py / sentiment.py /
risk_manager.py slices the text between the first open brace and the last
close brace and feeds it to json.loads.  JSON numbers are modelled as
rationals; the nonstandard Infinity / NaN literals accepted by the Python
parser have no rational counterpart and are treated as parse failures. -/

inductive JValue where
  | null : JValue
  | bool : Bool → JValue
  | num : ℚ → JValue
  | str : String → JValue
  | arr : List JValue → JValue
  | obj : List (String × JValue) → JValue

def isJsonWs (c : Char) : Bool := c = ' ' || c = '\t' || c = '\n' || c = '\r'

def skipWs : List Char → List Char
  | [] => []
  | c :: cs => if isJsonWs c then skipWs cs else c :: cs

def digitVal (c : Char) : Nat := c.toNat - '0'.toNat

/-- Split a leading run of decimal digits from the rest. -/
def takeDigits : List Char → List Char × List Char
  | [] => ([], [])
  | c :: cs =>
      if c.isDigit then
        let (ds, r) := takeDigits cs
        (c :: ds, r)
      else ([], c :: cs)

def natOfDigits (ds : List Char) : Nat := ds.foldl (fun a c => 10 * a + digitVal c) 0

/-- Integer part of a JSON number: 0, or a nonzero digit followed by digits. -/
def parseIntPart (cs : List Char) : Option (Nat × List Char) :=
  match takeDigits cs with
  | ([], _) => none
  | (ds, r) => if 1 < ds.length ∧ ds.headD 'x' = '0' then none else some (natOfDigits ds, r)

/-- Optional fractional part of a JSON number. -/
def parseFracPart (cs : List Char) : Option (ℚ × List Char) :=
  match cs with
  | '.' :: r =>
      (match takeDigits r with
       | ([], _) => none
       | (ds, r2) => some ((natOfDigits ds : ℚ) / (10 : ℚ) ^ ds.length, r2))
  | _ => some (0, cs)

/-- Optional exponent part of a JSON number. -/
def parseExpPart (cs : List Char) : Option (ℤ × List Char) :=
  match cs with
  | c :: r =>
      if c = 'e' ∨ c = 'E' then
        let (sgn, r1) : ℤ × List Char :=
          match r with
          | '+' :: r2 => (1, r2)
          | '-' :: r2 => (-1, r2)
          | _ => (1, r)
        match takeDigits r1 with
        | ([], _) => none
        | (ds, r2) => some (sgn * (natOfDigits ds : ℤ), r2)
      else some (0, cs)
  | [] => some (0, cs)

def parseJsonNumber (cs : List Char) : Option (ℚ × List Char) := do
  let (neg, cs1) := match cs with | '-' :: r => (true, r) | _ => (false, cs)
  let (ip, cs2) ← parseIntPart cs1
  let (fp, cs3) ← parseFracPart cs2
  let (ex, cs4) ← parseExpPart cs3
  let mag : ℚ := ((ip : ℚ) + fp) * (10 : ℚ) ^ ex
  some (if neg then -mag else mag, cs4)

def hexVal (c : Char) : Option Nat :=
  if c.isDigit then some (digitVal c)
  else if 'a' ≤ c ∧ c ≤ 'f' then some (c.toNat - 'a'.toNat + 10)
  else if 'A' ≤ c ∧ c ≤ 'F' then some (c.toNat - 'A'.toNat + 10)
  else none

/-- Body of a JSON string, after the opening quote; returns the decoded
string and the input following the closing quote. -/
def parseStringBody : Nat → List Char → List Char → Option (String × List Char)
  | 0, _, _ => none
  | _ + 1, [], _ => none
  | fuel + 1, c :: cs, acc =>
      if c = '"' then some (String.mk acc.reverse, cs)
      else if c = '\\' then
        match cs with
        | [] => none
        | e :: cs2 =>
            if e = '"' then parseStringBody fuel cs2 ('"' :: acc)
            else if e = '\\' then parseStringBody fuel cs2 ('\\' :: acc)
            else if e = '/' then parseStringBody fuel cs2 ('/' :: acc)
            else if e = 'b' then parseStringBody fuel cs2 ('\x08' :: acc)
            else if e = 'f' then parseStringBody fuel cs2 ('\x0c' :: acc)
            else if e = 'n' then parseStringBody fuel cs2 ('\n' :: acc)
            else if e = 'r' then parseStringBody fuel cs2 ('\r' :: acc)
            else if e = 't' then parseStringBody fuel cs2 ('\t' :: acc)
            else if e = 'u' then
              match cs2 with
              | a :: b :: c2 :: d :: cs3 =>
                  (match hexVal a, hexVal b, hexVal c2, hexVal d with
                   | some ha, some hb, some hc, some hd =>
                       parseStringBody fuel cs3
                         (Char.ofNat (((ha * 16 + hb) * 16 + hc) * 16 + hd) :: acc)
                   | _, _, _, _ => none)
              | _ => none
            else none
      else if c.toNat < 0x20 then none
      else parseStringBody fuel cs (c :: acc)

mutual

/-- Parse one JSON value; the input must start at a non-space character. -/
def parseVal : Nat → List Char → Option (JValue × List Char)
  | 0, _ => none
  | fuel + 1, cs =>
      match cs with
      | [] => none
      | c :: rest =>
          if c = '\x7b' then
            match skipWs rest with
            | '\x7d' :: r2 => some (.obj [], r2)
            | r1 => parseMembers fuel r1 []
          else if c = '[' then
            match skipWs rest with
            | ']' :: r2 => some (.arr [], r2)
            | r1 => parseElems fuel r1 []
          else if c = '"' then
            match parseStringBody (rest.length + 1) rest [] with
            | some (s, r) => some (.str s, r)
            | none => none
          else if c = 't' then
            match cs with
            | 't' :: 'r' :: 'u' :: 'e' :: r => some (.bool true, r)
            | _ => none
          else if c = 'f' then
            match cs with
            | 'f' :: 'a' :: 'l' :: 's' :: 'e' :: r => some (.bool false, r)
            | _ => none
          else if c = 'n' then
            match cs with
            | 'n' :: 'u' :: 'l' :: 'l' :: r => some (.null, r)
            | _ => none
          else
            match parseJsonNumber cs with
            | some (q, r) => some (.num q, r)
            | none => none

/-- Parse the members of a JSON object, after the opening brace and any
whitespace; accumulates pairs in reverse. -/
def parseMembers : Nat → List Char → List (String × JValue) → Option (JValue × List Char)
  | 0, _, _ => none
  | fuel + 1, cs, acc =>
      match cs with
      | [] => none
      | c :: rest =>
          if c = '"' then
            match parseStringBody (rest.length + 1) rest [] with
            | some (k, r1) =>
                (match skipWs r1 with
                 | ':' :: r2 =>
                     (match parseVal fuel (skipWs r2) with
                      | some (v, r3) =>
                          (match skipWs r3 with
                           | ',' :: r4 => parseMembers fuel (skipWs r4) ((k, v) :: acc)
                           | '\x7d' :: r4 => some (.obj ((k, v) :: acc).reverse, r4)
                           | _ => none)
                      | none => none)
                 | _ => none)
            | none => none
          else none

/-- Parse the elements of a JSON array, after the opening bracket and any
whitespace; accumulates elements in reverse. -/
def parseElems : Nat → List Char → List JValue → Option (JValue × List Char)
  | 0, _, _ => none
  | fuel + 1, cs, acc =>
      match parseVal fuel cs with
      | some (v, r1) =>
          (match skipWs r1 with
           | ',' :: r2 => parseElems fuel (skipWs r2) (v :: acc)
           | ']' :: r2 => some (.arr (v :: acc).reverse, r2)
           | _ => none)
      | none => none

end

/-- json.loads: the whole string must be one JSON value plus whitespace. -/
def jsonLoads (s : String) : Option JValue :=
  match parseVal (s.length + 1) (skipWs s.data) with
  | some (v, rest) => if (skipWs rest).isEmpty then some v else none
  | none => none

/-- Python dict lookup on the parsed object: with duplicate keys the later
entry wins, as in the dict built by json.loads. -/
def objGet (kvs : List (String × JValue)) (k : String) : Option JValue :=
  (kvs.reverse.find? (fun p => p.1 == k)).map (fun p => p.2)

/-! ## Python float() and the brace-slice extraction step -/

/-- Python float(str): optional whitespace and sign, then digits with an
optional decimal point and exponent ("1.", ".5", "2e3" are accepted).  The
inf / nan spellings and digit underscores have no counterpart in the
rational model and are treated as unconvertible. -/
def pyFloatOfString (s : String) : Option ℚ :=
  let cs := skipWs s.data
  let (neg, cs1) :=
    match cs with
    | '-' :: r => (true, r)
    | '+' :: r => (false, r)
    | _ => (false, cs)
  let (ids, cs2) := takeDigits cs1
  let (fds, cs3) :=
    match cs2 with
    | '.' :: r => takeDigits r
    | _ => ([], cs2)
  if ids.isEmpty && fds.isEmpty then none
  else
    match parseExpPart cs3 with
    | none => none
    | some (ex, cs4) =>
        if (skipWs cs4).isEmpty then
          let mag : ℚ :=
            ((natOfDigits ids : ℚ) + (natOfDigits fds : ℚ) / (10 : ℚ) ^ fds.length)
              * (10 : ℚ) ^ ex
          some (if neg then -mag else mag)
        else none

/-- Python float(x) on a value taken out of a parsed JSON dict: numbers
pass through, booleans coerce, numeric strings are parsed, everything else
raises (TypeError, or ValueError for a non-numeric string). -/
def pyFloat : JValue → Except String ℚ
  | .num q => .ok q
  | .bool b => .ok (if b then 1 else 0)
  | .str s =>
      match pyFloatOfString s with
      | some q => .ok q
      | none => .error "ValueError"
  | .null => .error "TypeError"
  | .arr _ => .error "TypeError"
  | .obj _ => .error "TypeError"

/-- Index of the first occurrence of a character (Python str.find). -/
def strFindIdx (s : String) (c : Char) : Option Nat :=
  s.data.findIdx? (fun x => x == c)

/-- Index of the last occurrence of a character (Python str.rfind). -/
def strRFindIdx (s : String) (c : Char) : Option Nat :=
  match s.data.reverse.findIdx? (fun x => x == c) with
  | some i => some (s.data.length - 1 - i)
  | none => none

/-- Python slice s[a:b] for a ≤ b within bounds. -/
def pySlice (s : String) (a b : Nat) : String :=
  String.mk ((s.data.drop a).take (b - a))

/-- The brace slice: response[start:end] for start the first open brace and
end one past the last close brace, provided start >= 0 and end > start
(market_analyst.py lines 119-121 and the identical risk / sentiment code). -/
def braceSub (s : String) : Option String :=
  match strFindIdx s '\x7b', strRFindIdx s '\x7d' with
  | some i, some j => if i < j + 1 then some (pySlice s i (j + 1)) else none
  | _, _ => none

/-- The parse attempt shared by all three analysis stages: brace slice, then
json.loads; any failure selects the stage fallback dict.  A successful parse
of the slice is necessarily an object since the slice starts at an open
brace. -/
def extractObj (s : String) : Option (List (String × JValue)) :=
  match braceSub s with
  | some sub =>
      (match jsonLoads sub with
       | some (.obj kvs) => some kvs
       | _ => none)
  | none => none

/-! ## SignalExtractor per stage -/

/-- signal_map.get of market_analyst.py lines 129-135. -/
def marketSignalMap (name : String) : Signal :=
  if name = "BUY" then .buy
  else if name = "SELL" then .sell
  else if name = "NEUTRAL" then .neutral
  else if name = "HOLD" then .hold
  else .neutral

/-- signal_map.get of sentiment.py lines 85-90. -/
def sentimentSignalMap (name : String) : Signal :=
  if name = "BULLISH" then .bullish
  else if name = "BEARISH" then .bearish
  else if name = "NEUTRAL" then .neutral
  else .neutral

/-- signal_map.get of risk_manager.py lines 116-121. -/
def riskSignalMap (name : String) : Signal :=
  if name = "APPROVE" then .approve
  else if name = "REDUCE" then .reduce
  else if name = "REJECT" then .reject
  else .approve

/-- result.get("signal", dflt).upper(): raises AttributeError when the
value under "signal" is not a string. -/
def signalNameOf (dflt : String) (kvs : List (String × JValue)) : Except String String :=
  match (objGet kvs "signal").getD (.str dflt) with
  | .str s => .ok s.toUpper
  | _ => .error "AttributeError"

/-- The (signal, confidence, rationale) triple a market or sentiment stage
builds into its AgentDecision. -/
structure StageExtract where
  signal : Signal
  confidence : ℚ
  reasoning : JValue

/-- Risk stage extraction also carries the clamped recommended size. -/
structure RiskExtract where
  signal : Signal
  confidence : ℚ
  reasoning : JValue
  recommended_size : ℚ

/-- Fallback dict of market_analyst.py lines 124-126 (sentiment.py uses the
same one). -/
def fallback_market (s : String) : List (String × JValue) :=
  [("signal", .str "NEUTRAL"), ("confidence", .num (1/2)), ("reasoning", .str s)]

/-- Fallback dict of risk_manager.py lines 111-113. -/
def fallback_risk (s : String) (max_position_size : ℚ) : List (String × JValue) :=
  [("signal", .str "APPROVE"), ("confidence", .num (7/10)),
   ("recommended_size", .num max_position_size), ("reasoning", .str s)]

/-- Mapping a parsed (or fallback) dict into the market AgentDecision
fields (market_analyst.py lines 128-142).  Note the confidence is
float(result.get("confidence", 0.5)) with no clamping. -/
def mapMarketResult (sigMap : String → Signal) (result : List (String × JValue)) :
    Except String StageExtract :=
  match signalNameOf "NEUTRAL" result with
  | .error e => .error e
  | .ok name =>
      match pyFloat ((objGet result "confidence").getD (.num (1/2))) with
      | .error e => .error e
      | .ok conf => .ok ⟨sigMap name, conf, (objGet result "reasoning").getD (.str "")⟩

/-- MarketAnalystAgent.analyze, parsing half: raw LLM text to the decision
triple (market_analyst.py lines 116-142). -/
def marketExtract (s : String) : Except String StageExtract :=
  mapMarketResult marketSignalMap ((extractObj s).getD (fallback_market s))

/-- SentimentAgent.analyze, parsing half (sentiment.py lines 73-97). -/
def sentimentExtract (s : String) : Except String StageExtract :=
  mapMarketResult sentimentSignalMap ((extractObj s).getD (fallback_market s))

/-- Mapping a parsed (or fallback) dict into the risk AgentDecision fields
(risk_manager.py lines 115-141): the recommended size is
min(float(raw), max_position_size) with no lower bound. -/
def mapRiskResult (max_position_size : ℚ) (result : List (String × JValue)) :
    Except String RiskExtract :=
  match signalNameOf "APPROVE" result with
  | .error e => .error e
  | .ok name =>
      match pyFloat ((objGet result "recommended_size").getD (.num max_position_size)) with
      | .error e => .error e
      | .ok rawSize =>
          match pyFloat ((objGet result "confidence").getD (.num (7/10))) with
          | .error e => .error e
          | .ok conf =>
              .ok ⟨riskSignalMap name, conf, (objGet result "reasoning").getD (.str ""),
                   min rawSize max_position_size⟩

/-- RiskManagerAgent.analyze, parsing half (risk_manager.py lines 104-141). -/
def riskExtract (s : String) (max_position_size : ℚ) : Except String RiskExtract :=
  mapRiskResult max_position_size ((extractObj s).getD (fallback_risk s max_position_size))

/-! ## AgentDecision and the structured parts of its data payload -/

/-- The dict returned by ExecutorAgent.execute_trade (executor.py lines
66-76).  success is literally: the order id is not None. -/
structure TradeResult where
  success : Bool
  order_id : Option String
  symbol : String
  action : String
  size : ℚ
  fill_price : ℚ
  reasoning : String
deriving DecidableEq, Repr

/-- The parts of AgentDecision.data["output"] that later pipeline steps
read back: the risk stage recommended size, the executor trade result, and
the executor hold output \x7b"action": "hold", "reason": "No trade signal"\x7d. -/
inductive DecisionOutput where
  | blank : DecisionOutput
  | risk : ℚ → DecisionOutput
  | trade : TradeResult → DecisionOutput
  | holdNoTrade : DecisionOutput
deriving DecidableEq, Repr

/-- AgentDecision (src/agents/base.py lines 36-49); the free-form data dict
is narrowed to the output fields the pipeline reads back, and the
timestamp is dropped (never read). -/
structure AgentDecision where
  agent_name : String
  stage : String
  signal : Signal
  confidence : ℚ
  reasoning : String
  output : DecisionOutput
deriving DecidableEq, Repr

/-! ## ConsensusEngine: CoordinatorAgent.calculate_consensus -/

/-- The direction_votes dict of coordinator.py line 89. -/
structure Votes where
  buy : ℚ
  sell : ℚ
  hold : ℚ
deriving DecidableEq, Repr

/-- The dict returned by calculate_consensus.  The veto branch returns only
action / confidence / reason, so direction and votes are optional; reading
consensus["direction"] on the veto dict is a KeyError. -/
structure ConsensusDict where
  action : Action
  confidence : ℚ
  direction : Option String
  votes : Option Votes
  reason : Option String
deriving DecidableEq, Repr

/-- The decisions dict keyed by agent name; keys other than the three
weighted names are skipped by the loop (coordinator.py line 92) and cannot
influence the result, so only these three entries are modelled. -/
structure DecisionsMap where
  marketAnalyst : Option AgentDecision
  sentimentAgent : Option AgentDecision
  riskManager : Option AgentDecision
deriving Repr

/-- One iteration of the weighted-scoring loop (coordinator.py lines
91-106). -/
def consensusStep (w : ℚ) (od : Option AgentDecision) (acc : ℚ × Votes) : ℚ × Votes :=
  match od with
  | none => acc
  | some d =>
      let score := d.confidence * w
      if d.signal = .buy ∨ d.signal = .bullish ∨ d.signal = .approve then
        (acc.1 + score, { acc.2 with buy := acc.2.buy + w })
      else if d.signal = .sell ∨ d.signal = .bearish then
        (acc.1 + score, { acc.2 with sell := acc.2.sell + w })
      else
        (acc.1, { acc.2 with hold := acc.2.hold + w })

/-- The non-veto body of calculate_consensus (coordinator.py lines 87-129):
weighted scoring in dict insertion order, fixed thresholds, strict-majority
direction with ties resolving to "none". -/
def consensusBody (ds : DecisionsMap) : ConsensusDict :=
  let acc1 := consensusStep 0.35 ds.marketAnalyst (0, ⟨0, 0, 0⟩)
  let acc2 := consensusStep 0.25 ds.sentimentAgent acc1
  let acc3 := consensusStep 0.40 ds.riskManager acc2
  let total_score := acc3.1
  let votes := acc3.2
  let action : Action :=
    if 0.65 ≤ total_score then .execute
    else if 0.45 ≤ total_score then .alert
    else .hold
  let direction : String :=
    if votes.sell < votes.buy then "buy"
    else if votes.buy < votes.sell then "sell"
    else "none"
  { action := action, confidence := total_score, direction := some direction,
    votes := some votes, reason := none }

/-- CoordinatorAgent.calculate_consensus (coordinator.py lines 69-129). -/
def calculate_consensus (ds : DecisionsMap) : ConsensusDict :=
  match ds.riskManager with
  | some rd =>
      if rd.signal = .reject then
        { action := .hold, confidence := 0, direction := none, votes := none,
          reason := some "Risk Manager veto - trade rejected" }
      else consensusBody ds
  | none => consensusBody ds

/-! ## ExecutorAgent: execute_trade and analyze -/

/-- The exchange responses the executor consumes: the parsed ticker last
price and the order_id field of the place_order response. -/
structure ExecEnv where
  ticker_last : ℚ
  order_id : Option String
deriving DecidableEq, Repr

/-- One call to the order-placement collaborator weex.place_order, with the
arguments the executor passes (order_type 1 is a market order). -/
structure OrderCall where
  symbol : String
  size : ℚ
  side : Nat
  order_type : Nat
deriving DecidableEq, Repr

/-- side_map.get(action.lower(), 1) of executor.py lines 47-51. -/
def side_map (action : String) : Nat :=
  if action = "buy" then 1 else if action = "sell" then 3 else 1

/-- ExecutorAgent.execute_trade (executor.py lines 36-76), returning the
result dict together with the trace of place_order calls it makes. -/
def execute_trade (env : ExecEnv) (symbol action : String) (size : ℚ) (reasoning : String) :
    TradeResult × List OrderCall :=
  let side := side_map action.toLower
  let order_id := env.order_id
  (⟨order_id.isSome, order_id, symbol, action, size, env.ticker_last, reasoning⟩,
   [⟨symbol, size, side, 1⟩])

/-- The context dict passed to ExecutorAgent.analyze. -/
structure ExecContext where
  action : Option String
  symbol : Option String
  size : Option ℚ
  trade_direction : Option String
  reasoning : Option String
deriving Repr

/-- ExecutorAgent.analyze (executor.py lines 78-116).  The executed-order
reasoning string is abbreviated (the Python f-string interpolates the repr
of the result dict); no later step reads it back. -/
def executorAnalyze (env : ExecEnv) (ctx : ExecContext) : AgentDecision × List OrderCall :=
  let action := ctx.action.getD "hold"
  let symbol := ctx.symbol.getD "cmt_btcusdt"
  let size := ctx.size.getD (1/5000)
  let reasoning := ctx.reasoning.getD ""
  if action.toLower = "execute" ∨ action.toLower = "buy" ∨ action.toLower = "sell" then
    let trade_action := ctx.trade_direction.getD "buy"
    let (result, calls) := execute_trade env symbol trade_action size reasoning
    let signal := if trade_action = "buy" then Signal.buy else Signal.sell
    ({ agent_name := "Executor", stage := "Order Execution", signal := signal,
       confidence := if result.success then 1 else 0,
       reasoning := "Executed " ++ trade_action ++ " order",
       output := .trade result }, calls)
  else
    ({ agent_name := "Executor", stage := "Order Execution", signal := .hold,
       confidence := 1,
       reasoning := "No execution required. Action: " ++ action,
       output := .holdNoTrade }, [])

/-! ## ExecutionGate: CoordinatorAgent.run_team_analysis -/

/-- TeamDecision (coordinator.py lines 17-25). -/
structure TeamDecision where
  action : Action
  trade_direction : String
  size : ℚ
  confidence : ℚ
  reasoning : String
  agent_decisions : List AgentDecision
deriving Repr

/-- The external inputs of one pipeline run: the three stage decisions the
analysis agents produced (each one an LLM round trip plus extraction,
settled before the coordinator aggregates them) and the exchange responses
for the optional execution step. -/
structure RunEnv where
  symbol : String
  ma : AgentDecision
  sa : AgentDecision
  rm : AgentDecision
  exec : ExecEnv
  max_position_size : ℚ
deriving Repr

/-- Outcome of a run: either a TeamDecision or an uncaught exception, plus
the trace of order-placement calls made along the way. -/
structure RunResult where
  outcome : Except String TeamDecision
  orders : List OrderCall
deriving Repr

/-- rm_decision.data.get("output", \x7b\x7d).get("recommended_size",
max_position_size) of coordinator.py line 180. -/
def rmRecommendedSize (d : AgentDecision) (max_position_size : ℚ) : ℚ :=
  match d.output with
  | .risk sz => sz
  | _ => max_position_size

/-- Python int(str): optional whitespace and sign, then digits. -/
def pyIntOfString (s : String) : Except String ℤ :=
  let cs := skipWs s.data
  let (neg, cs1) :=
    match cs with
    | '-' :: r => (true, r)
    | '+' :: r => (false, r)
    | _ => (false, cs)
  match takeDigits cs1 with
  | ([], _) => .error "ValueError"
  | (ds, r) =>
      if (skipWs r).isEmpty then
        .ok (if neg then -(natOfDigits ds : ℤ) else (natOfDigits ds : ℤ))
      else .error "ValueError"

/-- CoordinatorAgent.run_team_analysis (coordinator.py lines 131-241), with
the three analyze calls replaced by their externally determined decisions.
The consensus reasoning f-string reads consensus["direction"] and
consensus["votes"] with square brackets, which on the veto dict is a
KeyError; the printed string itself is abbreviated since nothing reads it
back.  After a placed order, coordinator.py line 224 runs
int(order_id) if order_id else None, which raises ValueError on a
non-numeric, nonempty order id. -/
def run_team_analysis (env : RunEnv) : RunResult :=
  let decisions : DecisionsMap := ⟨some env.ma, some env.sa, some env.rm⟩
  let consensus := calculate_consensus decisions
  let recommended_size := rmRecommendedSize env.rm env.max_position_size
  match consensus.direction, consensus.votes with
  | some dir, some _votes =>
      let coord_reasoning := "Consensus: " ++ consensus.action.valueStr ++ ". Direction: " ++ dir
      if consensus.action = .execute ∧ (dir = "buy" ∨ dir = "sell") then
        let ctx : ExecContext :=
          ⟨some "execute", some env.symbol, some recommended_size, some dir, some coord_reasoning⟩
        let execRes := executorAnalyze env.exec ctx
        let execution_decision := execRes.1
        let order_id : Option String :=
          match execution_decision.output with
          | .trade r => r.order_id
          | _ => none
        let logged : Except String (Option ℤ) :=
          match order_id with
          | some oid => if oid = "" then .ok none else (pyIntOfString oid).map some
          | none => .ok none
        match logged with
        | .error e => ⟨.error e, execRes.2⟩
        | .ok _ =>
            ⟨.ok ⟨consensus.action, dir, recommended_size, consensus.confidence, coord_reasoning,
                  [env.ma, env.sa, env.rm] ++ [execution_decision]⟩, execRes.2⟩
      else
        ⟨.ok ⟨consensus.action, dir, recommended_size, consensus.confidence, coord_reasoning,
              [env.ma, env.sa, env.rm]⟩, []⟩
  | _, _ => ⟨.error "KeyError", []⟩

/-! ## MarketAnalystAgent.calculate_indicators (the inline RSI variant) -/

/-- The indicators dict of market_analyst.py lines 75-84. -/
structure MarketIndicators where
  rsi_14 : ℚ
  ema_20 : ℚ
  ema_50 : ℚ
  macd : ℚ
  current_price : ℚ
  price_above_ema20 : Bool
  price_above_ema50 : Bool
  ema_bullish_cross : Bool
deriving DecidableEq, Repr

/-- closes = [float(c[4]) for c in candles if isinstance(c, list) and
len(c) > 4] with every candle row already a list of numbers. -/
def closesOf (candles : List (List ℚ)) : List ℚ :=
  (candles.filter (fun c => 4 < c.length)).map (fun c => c.getD 4 0)

/-- The nested def ema of market_analyst.py lines 60-65: the same
recurrence as TechnicalAnalysis.calculate_ema but with no rounding and no
short-series branch; an empty series is an IndexError at data[0]. -/
def inline_ema (data : List ℚ) (period : Nat) : Except String ℚ :=
  match data with
  | [] => .error "IndexError"
  | p :: rest => .ok (emaFold period p rest)

/-- MarketAnalystAgent.calculate_indicators (market_analyst.py lines
43-84).  Returns none for the early \x7b\x7d return on fewer than 20
candles.  Note the RSI here substitutes rs = 100 when the mean loss is not
positive instead of returning 100 directly. -/
def calculate_indicators (candles : List (List ℚ)) : Except String (Option MarketIndicators) :=
  if candles.length < 20 then .ok none
  else
    let closes := closesOf candles
    let deltas := npDiff closes
    let gains := gainsOf deltas
    let losses := lossesOf deltas
    let avg_gain := if 14 ≤ gains.length then npMean (lastN 14 gains) else 0
    let avg_loss := if 14 ≤ losses.length then npMean (lastN 14 losses) else 1
    let rs := if 0 < avg_loss then avg_gain / avg_loss else 100
    let rsi := 100 - 100 / (1 + rs)
    do
      let ema_20 ← inline_ema closes 20
      let ema_50 ← if 50 ≤ closes.length then inline_ema closes 50 else pure ema_20
      let ema_12 ← inline_ema closes 12
      let ema_26 ← if 26 ≤ closes.length then inline_ema closes 26 else pure ema_12
      let macd := ema_12 - ema_26
      match closes.getLast? with
      | none => .error "IndexError"
      | some curr =>
          .ok (some ⟨round2 rsi, round2 ema_20, round2 ema_50, round2 macd, curr,
                     decide (ema_20 < curr), decide (ema_50 < curr), decide (ema_50 < ema_20)⟩)

/-! ## Sample decisions used by concrete scenarios -/

def maBuy09 : AgentDecision :=
  ⟨"MarketAnalyst", "Technical Analysis", .buy, 0.9, "momentum up", .blank⟩

def saBull08 : AgentDecision :=
  ⟨"SentimentAgent", "Sentiment Analysis", .bullish, 0.8, "funding positive", .blank⟩

def rmAppr09 : AgentDecision :=
  ⟨"RiskManager", "Risk Assessment", .approve, 0.9, "exposure ok", .risk (1/5000)⟩

def rmRej07 : AgentDecision :=
  ⟨"RiskManager", "Risk Assessment", .reject, 0.7, "too risky", .risk (1/5000)⟩

def maNeut05 : AgentDecision :=
  ⟨"MarketAnalyst", "Technical Analysis", .neutral, 0.5, "flat", .blank⟩

def saNeut05 : AgentDecision :=
  ⟨"SentimentAgent", "Sentiment Analysis", .neutral, 0.5, "mixed", .blank⟩

def rmAppr05 : AgentDecision :=
  ⟨"RiskManager", "Risk Assessment", .approve, 0.5, "small size only", .risk (1/5000)⟩

/-- The scenario-1 decisions map: market Buy 0.9, sentiment Bullish 0.8,
risk Approve 0.9. -/
def scenario1 : DecisionsMap := ⟨some maBuy09, some saBull08, some rmAppr09⟩

/-! ## C1: the risk veto -/

/-- C1: for every decisions map in which the risk stage signal is Reject,
calculate_consensus returns the veto dict at once: action Hold, weighted
score (stored under the "confidence" key) 0.0, and no direction — the veto
dict carries no direction or votes entry, so its direction is None —
whatever the market and sentiment entries hold. -/
theorem C1_risk_veto_forces_hold (ds : DecisionsMap) (rd : AgentDecision)
    (hrm : ds.riskManager = some rd) (hsig : rd.signal = Signal.reject) :
    calculate_consensus ds =
      { action := Action.hold, confidence := 0, direction := none, votes := none,
        reason := some "Risk Manager veto - trade rejected" } := by
  unfold calculate_consensus
  rw [hrm]
  simp [hsig]

/-- C1 witness: the veto theorem applied to a concrete map with risk Reject
and high-confidence bullish market and sentiment decisions. -/
theorem C1_witness :
    calculate_consensus ⟨some maBuy09, some saBull08, some rmRej07⟩ =
      { action := Action.hold, confidence := 0, direction := none, votes := none,
        reason := some "Risk Manager veto - trade rejected" } :=
  C1_risk_veto_forces_hold ⟨some maBuy09, some saBull08, some rmRej07⟩ rmRej07 rfl rfl

/-! ## C3: end-to-end scenario 1 -/

/-- C3 counterexample: on market Buy 0.9, sentiment Bullish 0.8, risk
Approve 0.9, the weighted score is 0.35 x 0.9 + 0.25 x 0.8 + 0.40 x 0.9 =
0.875, not the 0.935 the claim states. -/
theorem C3_counterexample :
    (calculate_consensus scenario1).confidence = 0.875 ∧
    (calculate_consensus scenario1).confidence ≠ 0.935 := by
  have h : (calculate_consensus scenario1).confidence = 0.875 := by
    with_unfolding_all rfl
  refine ⟨h, ?_⟩
  rw [h]
  norm_num

/-- C3 (amended): the scenario-1 consensus has weighted score exactly
0.875, action Execute, and direction buy. -/
theorem C3_scenario1_execute_buy :
    calculate_consensus scenario1 =
      { action := Action.execute, confidence := 0.875, direction := some "buy",
        votes := some ⟨1, 0, 0⟩, reason := none } := by
  with_unfolding_all rfl

/-! ## C5 and C4: the blocked paths of run_team_analysis -/

/-- C5: in every pipeline run whose consensus direction resolves to no
direction — the veto dict without a direction key, or the tie value
"none" — the order-placement collaborator is never called. -/
theorem C5_no_direction_no_order (env : RunEnv)
    (h : (calculate_consensus ⟨some env.ma, some env.sa, some env.rm⟩).direction = none ∨
         (calculate_consensus ⟨some env.ma, some env.sa, some env.rm⟩).direction = some "none") :
    (run_team_analysis env).orders = [] := by
  simp only [run_team_analysis]
  rcases h with h | h
  · rw [h]
  · rw [h]
    cases hv : (calculate_consensus ⟨some env.ma, some env.sa, some env.rm⟩).votes with
    | none => rfl
    | some v =>
        dsimp only
        have hcond : ¬ ((calculate_consensus
            ⟨some env.ma, some env.sa, some env.rm⟩).action = Action.execute ∧
            ("none" = "buy" ∨ "none" = "sell")) := by
          intro hc
          rcases hc with ⟨_, hd | hd⟩ <;> exact absurd hd (by decide)
        rw [if_neg hcond]

/-- C5 witness: the order trace is empty on a concrete run whose risk
stage rejects (so the consensus direction is missing / None). -/
theorem C5_witness :
    (run_team_analysis ⟨"cmt_btcusdt", maBuy09, saBull08, rmRej07, ⟨50000, some "123"⟩,
        1/5000⟩).orders = [] :=
  C5_no_direction_no_order
    ⟨"cmt_btcusdt", maBuy09, saBull08, rmRej07, ⟨50000, some "123"⟩, 1/5000⟩
    (Or.inl (by with_unfolding_all rfl))

/-- C4 (amended): whenever the consensus action is Hold, or the consensus
direction resolves to no direction, the run attempts no order and appends
no executor decision: when a TeamDecision is produced at all its decision
list is exactly the three stage decisions.  (In the risk-veto sub-case the
run instead stops with a KeyError while formatting the consensus
reasoning, producing no TeamDecision — and still no order.) -/
theorem C4_blocked_no_executor_decision (env : RunEnv)
    (h : (calculate_consensus ⟨some env.ma, some env.sa, some env.rm⟩).action = Action.hold ∨
         (calculate_consensus ⟨some env.ma, some env.sa, some env.rm⟩).direction = none ∨
         (calculate_consensus ⟨some env.ma, some env.sa, some env.rm⟩).direction = some "none") :
    (run_team_analysis env).orders = [] ∧
    ∀ td, (run_team_analysis env).outcome = Except.ok td →
      td.agent_decisions = [env.ma, env.sa, env.rm] := by
  simp only [run_team_analysis]
  cases hd : (calculate_consensus ⟨some env.ma, some env.sa, some env.rm⟩).direction with
  | none => exact ⟨rfl, by intro td hc; cases hc⟩
  | some dir =>
      cases hv : (calculate_consensus ⟨some env.ma, some env.sa, some env.rm⟩).votes with
      | none => exact ⟨rfl, by intro td hc; cases hc⟩
      | some v =>
          dsimp only
          have hcond : ¬ ((calculate_consensus ⟨some env.ma, some env.sa, some env.rm⟩).action
              = Action.execute ∧ (dir = "buy" ∨ dir = "sell")) := by
            rcases h with h | h | h
            · intro hc
              rw [h] at hc
              exact absurd hc.1 (by decide)
            · rw [hd] at h
              cases h
            · rw [hd] at h
              injection h with h
              subst h
              intro hc
              rcases hc.2 with hx | hx <;> exact absurd hx (by decide)
          rw [if_neg hcond]
          refine ⟨rfl, ?_⟩
          intro td hc
          injection hc with hc
          rw [← hc]

/-- C4 witness: a concrete blocked run (all-neutral-ish stages, consensus
Hold) places no order and its TeamDecision lists exactly the three stage
decisions. -/
theorem C4_witness :
    (run_team_analysis ⟨"cmt_btcusdt", maNeut05, saNeut05, rmAppr05, ⟨50000, some "123"⟩,
        1/5000⟩).orders = [] ∧
    ∀ td, (run_team_analysis ⟨"cmt_btcusdt", maNeut05, saNeut05, rmAppr05,
        ⟨50000, some "123"⟩, 1/5000⟩).outcome = Except.ok td →
      td.agent_decisions = [maNeut05, saNeut05, rmAppr05] :=
  C4_blocked_no_executor_decision
    ⟨"cmt_btcusdt", maNeut05, saNeut05, rmAppr05, ⟨50000, some "123"⟩, 1/5000⟩
    (Or.inl (by with_unfolding_all rfl))

/-- C4 counterexample: on a concrete blocked run (consensus action Hold)
the claim fails: no Hold AgentDecision with confidence 0 and a no-trade
rationale is recorded — the run records exactly the three input stage
decisions, none of which is a confidence-0 Hold. -/
theorem C4_counterexample :
    (calculate_consensus ⟨some maNeut05, some saNeut05, some rmAppr05⟩).action = Action.hold ∧
    (run_team_analysis ⟨"cmt_btcusdt", maNeut05, saNeut05, rmAppr05, ⟨50000, some "123"⟩,
        1/5000⟩).orders = [] ∧
    (run_team_analysis ⟨"cmt_btcusdt", maNeut05, saNeut05, rmAppr05, ⟨50000, some "123"⟩,
        1/5000⟩).outcome =
      Except.ok ⟨Action.hold, "buy", 1/5000, 0.2, "Consensus: hold. Direction: buy",
        [maNeut05, saNeut05, rmAppr05]⟩ ∧
    ([maNeut05, saNeut05, rmAppr05].all
      (fun d => !(d.signal == Signal.hold && d.confidence == 0))) = true := by
  refine ⟨?_, ?_, ?_, ?_⟩ <;> with_unfolding_all rfl

/-! ## C6 and C10: the execution step -/

/-- Execution context with a buy direction. -/
def ctxExecBuy : ExecContext :=
  ⟨some "execute", some "cmt_btcusdt", some (1/5000), some "buy", some "go long"⟩

/-- Execution context whose trade_direction is not a recognized value. -/
def ctxExecFlat : ExecContext :=
  ⟨some "execute", some "cmt_btcusdt", some (1/5000), some "flat", some "odd direction"⟩

/-- Execution context with no trade_direction at all. -/
def ctxExecNoDir : ExecContext :=
  ⟨some "execute", some "cmt_btcusdt", some (1/5000), none, some "direction missing"⟩

/-- C6 (amended): once the execution step is entered, success is the order
collaborator returning any order id at all (order_id is not None — an
empty string also counts as success); only a missing id is failure, and
then the executor still returns an AgentDecision with confidence 0.0 and
the signal still set from the trade direction, raising nothing. -/
theorem C6_failure_is_reported (env : ExecEnv) (ctx : ExecContext)
    (h : (ctx.action.getD "hold").toLower = "execute" ∨
         (ctx.action.getD "hold").toLower = "buy" ∨
         (ctx.action.getD "hold").toLower = "sell") :
    (execute_trade env (ctx.symbol.getD "cmt_btcusdt") (ctx.trade_direction.getD "buy")
        (ctx.size.getD (1/5000)) (ctx.reasoning.getD "")).1.success = env.order_id.isSome ∧
    ((executorAnalyze env ctx).1.confidence = if env.order_id.isSome then 1 else 0) ∧
    (executorAnalyze env ctx).1.signal =
      (if ctx.trade_direction.getD "buy" = "buy" then Signal.buy else Signal.sell) ∧
    (executorAnalyze env ctx).1.output =
      DecisionOutput.trade (execute_trade env (ctx.symbol.getD "cmt_btcusdt")
        (ctx.trade_direction.getD "buy") (ctx.size.getD (1/5000)) (ctx.reasoning.getD "")).1 := by
  simp only [executorAnalyze]
  rw [if_pos h]
  exact ⟨rfl, rfl, rfl, rfl⟩

/-- C6 witness: with the order id missing, the concrete execution decision
has confidence 0. -/
theorem C6_witness :
    (executorAnalyze ⟨50000, none⟩ ctxExecBuy).1.confidence =
      if (none : Option String).isSome then 1 else 0 :=
  (C6_failure_is_reported ⟨50000, none⟩ ctxExecBuy (Or.inl (by with_unfolding_all rfl))).2.1

/-- C6 counterexample: an empty-string order id is NOT treated as failure:
execute_trade reports success = true and the decision keeps confidence
1.0, where the claim requires a failure with confidence 0.0. -/
theorem C6_counterexample :
    (execute_trade ⟨50000, some ""⟩ "cmt_btcusdt" "buy" (1/5000) "go long").1.success = true ∧
    (execute_trade ⟨50000, some ""⟩ "cmt_btcusdt" "buy" (1/5000) "go long").1.order_id
      = some "" ∧
    (executorAnalyze ⟨50000, some ""⟩ ctxExecBuy).1.confidence = 1 :=
  ⟨by with_unfolding_all rfl, by with_unfolding_all rfl, by with_unfolding_all rfl⟩

/-- C10 (amended): when the context action is execute / buy / sell, a
missing trade_direction defaults to "buy" (exchange side 1, signal Buy);
a present direction picks the order side by case-insensitive lookup with
unrecognized strings defaulting to side 1 (open_long), while the recorded
signal is Buy exactly for the literal string "buy" and Sell for anything
else — an unrecognized direction is traded as a long but recorded as
Sell. -/
theorem C10_unrecognized_direction_traded_long (env : ExecEnv) (ctx : ExecContext)
    (h : (ctx.action.getD "hold").toLower = "execute" ∨
         (ctx.action.getD "hold").toLower = "buy" ∨
         (ctx.action.getD "hold").toLower = "sell") :
    (ctx.trade_direction = none →
        (executorAnalyze env ctx).2 =
          [⟨ctx.symbol.getD "cmt_btcusdt", ctx.size.getD (1/5000), 1, 1⟩] ∧
        (executorAnalyze env ctx).1.signal = Signal.buy) ∧
    (∀ td, ctx.trade_direction = some td → td ≠ "buy" →
        (executorAnalyze env ctx).1.signal = Signal.sell) ∧
    (∀ td, ctx.trade_direction = some td → td.toLower ≠ "buy" → td.toLower ≠ "sell" →
        (executorAnalyze env ctx).2 =
          [⟨ctx.symbol.getD "cmt_btcusdt", ctx.size.getD (1/5000), 1, 1⟩]) := by
  simp only [executorAnalyze]
  rw [if_pos h]
  refine ⟨?_, ?_, ?_⟩
  · intro hnone
    rw [hnone]
    exact ⟨by with_unfolding_all rfl, by with_unfolding_all rfl⟩
  · intro td htd hne
    rw [htd]
    dsimp only [Option.getD]
    rw [if_neg hne]
  · intro td htd hb hs
    rw [htd]
    dsimp only [Option.getD, execute_trade, side_map]
    rw [if_neg hb, if_neg hs]

/-- C10 witness: with the direction absent, the concrete execution places
a side-1 market order and records signal Buy. -/
theorem C10_witness :
    (executorAnalyze ⟨50000, some "123"⟩ ctxExecNoDir).2 =
      [⟨ctxExecNoDir.symbol.getD "cmt_btcusdt", ctxExecNoDir.size.getD (1/5000), 1, 1⟩] ∧
    (executorAnalyze ⟨50000, some "123"⟩ ctxExecNoDir).1.signal = Signal.buy :=
  (C10_unrecognized_direction_traded_long ⟨50000, some "123"⟩ ctxExecNoDir (Or.inl (by with_unfolding_all rfl))).1 rfl

/-- C10 counterexample: the unrecognized direction "flat" is traded as a
long (side 1 order is placed) but the decision signal is Sell, not the Buy
the claim states. -/
theorem C10_counterexample :
    (executorAnalyze ⟨50000, some "123"⟩ ctxExecFlat).2 =
      [⟨"cmt_btcusdt", 1/5000, 1, 1⟩] ∧
    (executorAnalyze ⟨50000, some "123"⟩ ctxExecFlat).1.signal = Signal.sell ∧
    Signal.sell ≠ Signal.buy :=
  ⟨by with_unfolding_all rfl, by with_unfolding_all rfl, by decide⟩

/-! ## C2 and C7: signal extraction -/

/-- A response whose JSON object carries confidence 2.0 and signal BUY. -/
def jsonBuy2 : String := "\x7b\"signal\": \"BUY\", \"confidence\": 2.0\x7d"

/-- A response whose JSON object carries a null confidence. -/
def jsonConfNull : String := "\x7b\"signal\": \"BUY\", \"confidence\": null\x7d"

/-- A response whose JSON object carries a negative recommended size. -/
def jsonNegSize : String :=
  "\x7b\"signal\": \"APPROVE\", \"confidence\": 0.9, \"recommended_size\": -1\x7d"

/-- C2 (amended): when the response holds no parseable JSON object (empty
string, unmatched braces, malformed JSON) every stage falls back without
raising to its default signal and confidence — Neutral 0.5 for market and
sentiment, Approve 0.7 for risk — with the raw string as rationale; when
an object does parse, the confidence is float(value) passed through with
NO clamping, so values outside [0, 1] are kept (and a non-float-convertible
confidence value raises instead of falling back). -/
theorem C2_extraction_fallback_and_unclamped (s : String) :
    (extractObj s = none →
        marketExtract s = Except.ok ⟨Signal.neutral, 1/2, JValue.str s⟩ ∧
        sentimentExtract s = Except.ok ⟨Signal.neutral, 1/2, JValue.str s⟩ ∧
        ∀ mx : ℚ, riskExtract s mx = Except.ok ⟨Signal.approve, 7/10, JValue.str s, mx⟩) ∧
    (∀ kvs name conf, extractObj s = some kvs →
        signalNameOf "NEUTRAL" kvs = Except.ok name →
        pyFloat ((objGet kvs "confidence").getD (JValue.num (1/2))) = Except.ok conf →
        marketExtract s = Except.ok
          ⟨marketSignalMap name, conf, (objGet kvs "reasoning").getD (JValue.str "")⟩) := by
  constructor
  · intro h
    refine ⟨?_, ?_, ?_⟩
    · simp only [marketExtract, h, Option.getD]
      with_unfolding_all rfl
    · simp only [sentimentExtract, h, Option.getD]
      with_unfolding_all rfl
    · intro mx
      have hstep : riskExtract s mx =
          Except.ok ⟨Signal.approve, 7/10, JValue.str s, min mx mx⟩ := by
        simp only [riskExtract, h, Option.getD]
        with_unfolding_all rfl
      rw [hstep, min_self]
  · intro kvs name conf h1 h2 h3
    simp only [marketExtract, h1, Option.getD]
    unfold mapMarketResult
    rw [h2]
    dsimp only
    rw [h3]
    rfl

/-- C2 witness: the fallback branch at a concrete brace-free string, and
the pass-through branch at a concrete response whose confidence is 2.0 —
stored as 2, outside [0, 1]. -/
theorem C2_witness :
    marketExtract "hold tight" = Except.ok ⟨Signal.neutral, 1/2, JValue.str "hold tight"⟩ ∧
    marketExtract jsonBuy2 = Except.ok ⟨Signal.buy, 2, JValue.str ""⟩ := by
  constructor
  · exact ((C2_extraction_fallback_and_unclamped "hold tight").1 (by with_unfolding_all rfl)).1
  · have happ := (C2_extraction_fallback_and_unclamped jsonBuy2).2
      [("signal", JValue.str "BUY"), ("confidence", JValue.num 2)] "BUY" 2
      (by with_unfolding_all rfl) (by with_unfolding_all rfl) (by with_unfolding_all rfl)
    rw [happ]
    with_unfolding_all rfl

/-- C2 counterexample: the extraction does not clamp the confidence — the
concrete response with confidence 2.0 yields an AgentDecision confidence
of 2, outside [0, 1] — and it can raise: a null confidence propagates a
TypeError out of float() instead of falling back. -/
theorem C2_counterexample :
    marketExtract jsonBuy2 = Except.ok ⟨Signal.buy, 2, JValue.str ""⟩ ∧
    ¬ ((2 : ℚ) ≤ 1) ∧
    marketExtract jsonConfNull = Except.error "TypeError" :=
  ⟨by with_unfolding_all rfl, by norm_num, by with_unfolding_all rfl⟩

/-- C7 (amended): the risk stage recommended size is clamped from above
only: whenever extraction succeeds the stored size is at most
max_position_size, but there is no lower bound at 0 (a negative raw value
is stored unchanged). -/
theorem C7_size_clamped_above_only (s : String) (mx : ℚ) (r : RiskExtract)
    (h : riskExtract s mx = Except.ok r) : r.recommended_size ≤ mx := by
  unfold riskExtract mapRiskResult at h
  cases hn : signalNameOf "APPROVE" ((extractObj s).getD (fallback_risk s mx)) with
  | error e => simp [hn] at h
  | ok name =>
      cases hz : pyFloat ((objGet ((extractObj s).getD (fallback_risk s mx))
          "recommended_size").getD (JValue.num mx)) with
      | error e => simp [hn, hz] at h
      | ok rawSize =>
          cases hc : pyFloat ((objGet ((extractObj s).getD (fallback_risk s mx))
              "confidence").getD (JValue.num (7/10))) with
          | error e => simp [hn, hz, hc] at h
          | ok conf =>
              rw [hn] at h
              dsimp only at h
              rw [hz] at h
              dsimp only at h
              rw [hc] at h
              dsimp only at h
              injection h with h
              rw [← h]
              exact min_le_right _ _

/-- C7 witness: the clamp theorem applied to a concrete in-range response
(recommended size 0.0001 against a 0.0002 cap). -/
theorem C7_witness :
    (⟨Signal.approve, 9/10, JValue.str "", 1/10000⟩ : RiskExtract).recommended_size
      ≤ 1/5000 :=
  C7_size_clamped_above_only
    "\x7b\"signal\": \"APPROVE\", \"confidence\": 0.9, \"recommended_size\": 0.0001\x7d"
    (1/5000) ⟨Signal.approve, 9/10, JValue.str "", 1/10000⟩ (by with_unfolding_all rfl)

/-- C7 counterexample: a negative recommended size in the response is
stored as is — the concrete response with recommended_size -1 produces a
stored size of -1, below the claimed lower bound 0. -/
theorem C7_counterexample :
    riskExtract jsonNegSize (1/5000) =
      Except.ok ⟨Signal.approve, 9/10, JValue.str "", -1⟩ ∧
    ((-1 : ℚ) < 0) :=
  ⟨by with_unfolding_all rfl, by norm_num⟩

/-! ## C8: the MACD shape -/

lemma cent_zero : Cent 0 := ⟨0, by norm_num⟩

/-- Every calculate_ema output over cent-valued prices is cent-valued: the
short branch returns a price (or 0), the long branch rounds. -/
lemma calculate_ema_cent {prices : List ℚ} (period : Nat)
    (h : ∀ p ∈ prices, Cent p) : Cent (calculate_ema prices period) := by
  unfold calculate_ema
  split
  · cases hg : prices.getLast? with
    | none => simpa [hg] using cent_zero
    | some p => exact h p (List.mem_of_mem_getLast? hg)
  · split
    · exact cent_zero
    · exact round2_cent _

/-- An EMA over a series at least as long as its period takes the rounded
branch, so its value is always a whole number of hundredths. -/
lemma calculate_ema_cent_of_le {prices : List ℚ} {period : Nat}
    (h : period ≤ prices.length) : Cent (calculate_ema prices period) := by
  unfold calculate_ema
  rw [if_neg (not_lt.mpr h)]
  split
  · exact cent_zero
  · exact round2_cent _

lemma lastN_nine_length {prices : List ℚ} (h : 9 ≤ prices.length) :
    9 ≤ (lastN 9 prices).length := by
  unfold lastN
  rw [List.length_drop]
  omega

/-- C8 (amended): for every price series the MACD entry is the rounded
EMA(12) - EMA(26); with at least 9 prices the signal line is exactly the
EMA(9) of the trailing 9 PRICES (not of any MACD history); with fewer
than 9 prices the signal line equals the MACD line and the histogram is
0; and for cent-valued price series the histogram equals MACD minus
signal exactly (at sub-cent prices the two-decimal rounding ties can
break that identity by 0.01). -/
theorem C8_macd_shape (prices : List ℚ) :
    (calculate_macd prices).macd =
        round2 (calculate_ema prices 12 - calculate_ema prices 26) ∧
    (9 ≤ prices.length →
        (calculate_macd prices).signal = calculate_ema (lastN 9 prices) 9) ∧
    (prices.length < 9 → (calculate_macd prices).histogram = 0) ∧
    ((∀ p ∈ prices, Cent p) →
        (calculate_macd prices).histogram =
          (calculate_macd prices).macd - (calculate_macd prices).signal) := by
  have hmacd : (calculate_macd prices).macd =
      round2 (calculate_ema prices 12 - calculate_ema prices 26) := rfl
  refine ⟨hmacd, ?_, ?_, ?_⟩
  · intro hlen
    have hs : Cent (calculate_ema (lastN 9 prices) 9) :=
      calculate_ema_cent_of_le (lastN_nine_length hlen)
    have hsig : (calculate_macd prices).signal =
        round2 (calculate_ema (lastN 9 prices) 9) := by
      simp only [calculate_macd, if_pos hlen]
    rw [hsig, hs.round2_eq]
  · intro hlen
    have hhist : (calculate_macd prices).histogram =
        round2 (calculate_ema prices 12 - calculate_ema prices 26 -
          (calculate_ema prices 12 - calculate_ema prices 26)) := by
      simp only [calculate_macd, if_neg (not_le.mpr hlen)]
    rw [hhist, sub_self, cent_zero.round2_eq]
  · intro h
    have hm : Cent (calculate_ema prices 12 - calculate_ema prices 26) :=
      (calculate_ema_cent 12 h).sub (calculate_ema_cent 26 h)
    rcases le_or_lt 9 prices.length with hlen | hlen
    · have hs : Cent (calculate_ema (lastN 9 prices) 9) :=
        calculate_ema_cent_of_le (lastN_nine_length hlen)
      have hsig : (calculate_macd prices).signal =
          round2 (calculate_ema (lastN 9 prices) 9) := by
        simp only [calculate_macd, if_pos hlen]
      have hhist : (calculate_macd prices).histogram =
          round2 (calculate_ema prices 12 - calculate_ema prices 26 -
            calculate_ema (lastN 9 prices) 9) := by
        simp only [calculate_macd, if_pos hlen]
      rw [hhist, hmacd, hsig, (hm.sub hs).round2_eq, hm.round2_eq, hs.round2_eq]
    · have hsig : (calculate_macd prices).signal =
          round2 (calculate_ema prices 12 - calculate_ema prices 26) := by
        simp only [calculate_macd, if_neg (not_le.mpr hlen)]
      have hhist : (calculate_macd prices).histogram =
          round2 (calculate_ema prices 12 - calculate_ema prices 26 -
            (calculate_ema prices 12 - calculate_ema prices 26)) := by
        simp only [calculate_macd, if_neg (not_le.mpr hlen)]
      rw [hhist, hmacd, hsig, sub_self, sub_self, cent_zero.round2_eq]

/-- C8 witness: the histogram identity discharged at a concrete
cent-valued two-price series. -/
theorem C8_witness :
    (calculate_macd [1, 2]).histogram =
      (calculate_macd [1, 2]).macd - (calculate_macd [1, 2]).signal :=
  (C8_macd_shape [1, 2]).2.2.2 (by
      intro p hp
      rcases List.mem_cons.mp hp with rfl | hp
      · exact ⟨100, by norm_num⟩
      rcases List.mem_cons.mp hp with rfl | hp
      · exact ⟨200, by norm_num⟩
      cases hp)

/-- Concrete 10-price series separating the code signal line from the
claimed one. -/
def pricesC8 : List ℚ := [10, 20, 30, 40, 50, 60, 70, 80, 90, 100]

/-- Concrete 13-price sub-cent series on which the rounding ties break the
histogram identity. -/
def pricesC8h : List ℚ := [0, 0, 0, 0, 0, 0, 0, 0, 0, 0, 0, 13/200, -1/40]

/-- C8 counterexample, both failures of the claim as stated: (a) on a
concrete 10-price series the code signal line is the EMA(9) of the
trailing 9 prices, 66.71, while the claimed EMA(9) over the trailing 9
MACD-history values is 0; (b) the histogram is NOT exactly MACD minus
signal for every input: on the sub-cent series the dict is macd 0.02,
signal 0.01, histogram 0.02, yet macd - signal = 0.01. -/
theorem C8_counterexample :
    (calculate_macd pricesC8).signal = 6671/100 ∧
    macdSignalSpec pricesC8 = 0 ∧
    (calculate_macd pricesC8).signal ≠ macdSignalSpec pricesC8 ∧
    calculate_macd pricesC8h = { macd := 1/50, signal := 1/100, histogram := 1/50 } ∧
    (calculate_macd pricesC8h).histogram ≠
      (calculate_macd pricesC8h).macd - (calculate_macd pricesC8h).signal := by
  have h1 : (calculate_macd pricesC8).signal = 6671/100 := by with_unfolding_all rfl
  have h2 : macdSignalSpec pricesC8 = 0 := by with_unfolding_all rfl
  have h3 : calculate_macd pricesC8h =
      { macd := 1/50, signal := 1/100, histogram := 1/50 } := by with_unfolding_all rfl
  refine ⟨h1, h2, ?_, h3, ?_⟩
  · rw [h1, h2]
    norm_num
  · rw [h3]
    show (1/50 : ℚ) ≠ 1/50 - 1/100
    norm_num

/-! ## C9: RSI bounds and defaults -/

lemma mem_lastN {n : Nat} {l : List ℚ} {x : ℚ} (hx : x ∈ lastN n l) : x ∈ l :=
  List.mem_of_mem_drop hx

lemma gainsOf_nonneg {d : List ℚ} {x : ℚ} (hx : x ∈ gainsOf d) : 0 ≤ x := by
  simp only [gainsOf, List.mem_map] at hx
  obtain ⟨a, _, rfl⟩ := hx
  split
  · linarith
  · exact le_refl 0

lemma lossesOf_nonneg {d : List ℚ} {x : ℚ} (hx : x ∈ lossesOf d) : 0 ≤ x := by
  simp only [lossesOf, List.mem_map] at hx
  obtain ⟨a, _, rfl⟩ := hx
  split
  · linarith
  · exact le_refl 0

lemma npMean_nonneg {l : List ℚ} (h : ∀ x ∈ l, 0 ≤ x) : 0 ≤ npMean l :=
  div_nonneg (List.sum_nonneg h) (Nat.cast_nonneg _)

/-- C9: TechnicalAnalysis.calculate_rsi always lands in [0, 100]; a series
of fewer than 15 prices yields the neutral default 50.0; and with at least
15 prices a zero mean loss over the trailing 14 deltas yields exactly
100. -/
theorem C9_rsi_bounds_and_defaults (prices : List ℚ) :
    (0 ≤ calculate_rsi prices ∧ calculate_rsi prices ≤ 100) ∧
    (prices.length < 15 → calculate_rsi prices = 50) ∧
    (15 ≤ prices.length → npMean (lastN 14 (lossesOf (npDiff prices))) = 0 →
        calculate_rsi prices = 100) := by
  unfold calculate_rsi
  rcases lt_or_le prices.length 15 with hlen | hlen
  · rw [if_pos (show prices.length < 14 + 1 by omega)]
    exact ⟨⟨by norm_num, by norm_num⟩, fun _ => rfl, fun h' _ => absurd h' (by omega)⟩
  · rw [if_neg (show ¬ prices.length < 14 + 1 by omega)]
    dsimp only
    by_cases hz : npMean (lastN 14 (lossesOf (npDiff prices))) = 0
    · rw [if_pos hz]
      exact ⟨⟨by norm_num, by norm_num⟩, fun h' => absurd h' (by omega), fun _ _ => rfl⟩
    · rw [if_neg hz]
      have hg : 0 ≤ npMean (lastN 14 (gainsOf (npDiff prices))) :=
        npMean_nonneg (fun x hx => gainsOf_nonneg (mem_lastN hx))
      have hl0 : 0 ≤ npMean (lastN 14 (lossesOf (npDiff prices))) :=
        npMean_nonneg (fun x hx => lossesOf_nonneg (mem_lastN hx))
      have hlpos : 0 < npMean (lastN 14 (lossesOf (npDiff prices))) :=
        lt_of_le_of_ne hl0 (Ne.symm hz)
      have hrs : 0 ≤ npMean (lastN 14 (gainsOf (npDiff prices))) /
          npMean (lastN 14 (lossesOf (npDiff prices))) := div_nonneg hg hl0
      have h1rs : 0 < 1 + npMean (lastN 14 (gainsOf (npDiff prices))) /
          npMean (lastN 14 (lossesOf (npDiff prices))) := by linarith
      have hdivpos : 0 < 100 / (1 + npMean (lastN 14 (gainsOf (npDiff prices))) /
          npMean (lastN 14 (lossesOf (npDiff prices)))) := by positivity
      have hdivle : 100 / (1 + npMean (lastN 14 (gainsOf (npDiff prices))) /
          npMean (lastN 14 (lossesOf (npDiff prices)))) ≤ 100 := by
        rw [div_le_iff₀ h1rs]
        nlinarith
      exact ⟨⟨round2_nonneg (by linarith), round2_le_100 (by linarith)⟩,
             fun h' => absurd h' (by omega), fun _ hz' => absurd hz' hz⟩

/-- C9 witness: a strictly rising 15-price series has zero mean loss and
RSI exactly 100. -/
theorem C9_witness :
    calculate_rsi [1, 2, 3, 4, 5, 6, 7, 8, 9, 10, 11, 12, 13, 14, 15] = 100 :=
  (C9_rsi_bounds_and_defaults [1, 2, 3, 4, 5, 6, 7, 8, 9, 10, 11, 12, 13, 14, 15]).2.2
    (by decide) (by with_unfolding_all rfl)

/-- Twenty candle rows with strictly rising closes 1..20. -/
def candlesC9 : List (List ℚ) := (List.range 20).map (fun i => [0, 0, 0, 0, ((i : ℚ) + 1)])

/-- The rsi_14 entry of the market-analyst indicators dict, when present. -/
def indicatorsRsi (candles : List (List ℚ)) : Option ℚ :=
  match calculate_indicators candles with
  | .ok (some ind) => some ind.rsi_14
  | _ => none

/-- C9 counterexample: the market-analyst inline RSI does not return 100
at zero mean loss: on 20 strictly rising closes the mean loss over the
trailing 14 deltas is 0, yet the stored rsi_14 is
round(100 - 100/101, 2) = 99.01, because the code substitutes RS = 100
instead of returning 100. -/
theorem C9_counterexample :
    npMean (lastN 14 (lossesOf (npDiff (closesOf candlesC9)))) = 0 ∧
    indicatorsRsi candlesC9 = some (9901/100) ∧
    indicatorsRsi candlesC9 ≠ some 100 := by
  have h : indicatorsRsi candlesC9 = some (9901/100) := by with_unfolding_all rfl
  refine ⟨by with_unfolding_all rfl, h, ?_⟩
  rw [h]
  intro hc
  injection hc with hc
  norm_num at hc

end Fenyr
